import Mathlib

/-!
Verification of the authed-identity registry core against its specification.

The development shallowly embeds two components:

* `TokenService` (src/registry/services/token_service.py): issuance and
  verification of interaction tokens, including the mutual-permission
  algorithm, DPoP proof checking, and field encryption of the DPoP key.
* `WebSocketHandler` (src/client/sdk/server/websocket.py): the per-connection
  channel state machine.

External collaborators (AgentService, DPoPVerifier, EncryptionManager,
KeyManager, the `cryptography` RSA reconstruction, and JWT signing) are kept
abstract as function fields of an environment record, exactly at the interface
the Python code calls them.  Time is an integer count of seconds; identifiers
(UUIDs) are strings, matching the `str(...)` conversions the code performs.
-/

namespace Authed

/-! ## Data model -/

/-- Modelled from the spec: a permission grant is of kind `ALLOW_AGENT` or
`ALLOW_PROVIDER` (`registry/models.py` is not part of the sources; the token
service only compares these two enum values). -/
inductive PermissionType where
  | allow_agent
  | allow_provider
deriving DecidableEq, Repr

/-- Modelled from the spec: a permission grant carries its kind and a
`target_id` (an agent id for `ALLOW_AGENT`, a provider id for
`ALLOW_PROVIDER`). -/
structure AgentPermission where
  type : PermissionType
  target_id : String
deriving DecidableEq, Repr

/-- Modelled from the spec: an agent record exposes its provider affiliation
and its permission list; `TokenService` reads exactly these two fields. -/
structure Agent where
  provider_id : String
  permissions : List AgentPermission
deriving DecidableEq, Repr

/-- The claims of an interaction token (the signed JWT payload assembled in
`create_interaction_token`).  `dpop_public_key` is optional because
`verify_token` reads it with `payload.get(...)`. -/
structure TokenClaims where
  sub : String
  target : String
  dpop_hash : String
  dpop_public_key : Option String
  exp : Int
  iat : Int
  iss : String
  jti : String
  nbf : Int
  typ : String
deriving DecidableEq, Repr

/-- An RS256 signature, modelled abstractly: it records the id of the signing
keypair and the payload that was signed.  Verification against a public key
succeeds exactly when the keypair ids match and the payload is unchanged,
which captures the tamper-evidence of the real signature. -/
structure Sig where
  key : Nat
  payload : TokenClaims
deriving DecidableEq, Repr

/-- A JWT: the (readable) claims plus the signature over them.  Mutating the
claims of an issued token without re-signing makes `sig.payload ≠ claims`. -/
structure Token where
  claims : TokenClaims
  sig : Sig
deriving DecidableEq, Repr

/-- `jwt.encode(to_encode, REGISTRY_PRIVATE_KEY, algorithm="RS256")`. -/
def jwtEncode (privKey : Nat) (claims : TokenClaims) : Token :=
  ⟨claims, ⟨privKey, claims⟩⟩

/-- `jwt.decode(token, REGISTRY_PUBLIC_KEY, algorithms=["RS256"])` at time
`now`: signature check plus the decoder's `exp`/`nbf` enforcement (PyJWT
rejects when `exp ≤ now` or `nbf > now`).  `none` models
`jwt.InvalidTokenError`. -/
def jwtDecode (pubKey : Nat) (now : Int) (tok : Token) : Option TokenClaims :=
  if tok.sig.key = pubKey ∧ tok.sig.payload = tok.claims
      ∧ now < tok.claims.exp ∧ tok.claims.nbf ≤ now then
    some tok.claims
  else
    none

/-- A JWK carried in a DPoP proof header: base64url-encoded modulus `n` and
exponent `e` (the only fields `verify_token` reads). -/
structure Jwk where
  n : String
  e : String
deriving DecidableEq, Repr

/-- The environment of `TokenService`: the registry keypair and the external
collaborators, each at the exact interface the Python code calls. -/
structure Env where
  /-- Modelled from the spec: `AgentService.get_agent` resolves an agent id to
  its record (provider affiliation, permission list); `agent_service.py` is
  not part of the sources.  `none` models a missing agent. -/
  getAgent : String → Option Agent
  /-- The id of the registry keypair (`KeyManager`): `jwt.encode` uses its
  private half, `jwt.decode` its public half. -/
  registryKey : Nat
  /-- `DPoPVerifier.verify_proof(proof, public_key, method, url)`. -/
  verify_proof : String → String → String → String → Bool
  /-- `DPoPVerifier.hash_dpop_proof(proof)`. -/
  hash_dpop_proof : String → String
  /-- `EncryptionManager.encrypt_field`. -/
  encrypt_field : String → String
  /-- `EncryptionManager.decrypt_field`; `none` models a raised exception. -/
  decrypt_field : String → Option String
  /-- `jwt.get_unverified_header(dpop_proof).get("jwk")`: `none` models a
  header parse failure or an absent `jwk` member. -/
  getUnverifiedJwk : String → Option Jwk
  /-- `base64.urlsafe_b64decode` (with `=` padding) followed by
  `int.from_bytes(..., "big")`; `none` models a decode exception. -/
  b64urlToNat : String → Option Nat
  /-- `rsa.RSAPublicNumbers(e, n).public_key().public_bytes(PEM,
  SubjectPublicKeyInfo)`, decoded to a string: modulus then exponent. -/
  rsaPemFromModulusExponent : Nat → Nat → String

/-- The error kinds of `TokenService`.  In Python every kind is a `ValueError`
whose message identifies it; `create_interaction_token` additionally wraps any
cause into a single "Failed to create token: ..." error, so the model keeps
the cause kind as the error value. -/
inductive TokenError where
  /-- "Insufficient permissions between agents ..." -/
  | permissionDenied
  /-- "Invalid DPoP proof" (at issuance). -/
  | invalidProof
  /-- The spec's distinct kind for an unresolvable agent at issuance. -/
  | agentNotFound
  /-- "Invalid token: ..." (any `jwt.InvalidTokenError`). -/
  | invalidToken
  /-- "Target agent ID mismatch". -/
  | targetMismatch
  /-- "Verifying agent not found". -/
  | verifyingAgentNotFound
  /-- "Could not verify DPoP proof: ..." -/
  | dpopVerificationFailed
  /-- "Agent permissions have been revoked". -/
  | permissionRevoked
deriving DecidableEq, Repr

/-- The value returned by `create_interaction_token`
(`models.InteractionToken`). -/
structure InteractionToken where
  token : Token
  target_agent_id : String
  expires_at : Int
deriving DecidableEq, Repr

/-! ## TokenService -/

/-- `TokenService._check_agent_has_permission`: scan the permission list for
an `ALLOW_AGENT` grant on the target agent id or an `ALLOW_PROVIDER` grant on
the target's provider id. -/
def check_agent_has_permission (agent_permissions : List AgentPermission)
    (target_agent_id : String) (target_provider_id : String) : Bool :=
  agent_permissions.any fun perm =>
    (perm.type == PermissionType.allow_agent && perm.target_id == target_agent_id)
    || (perm.type == PermissionType.allow_provider && perm.target_id == target_provider_id)

/-- `TokenService._verify_agent_permissions`: resolve both agents (returning
`false` if either is missing, as the Python logs and returns `False`), then
require a grant in each direction. -/
def verify_agent_permissions (env : Env)
    (requesting_agent_id target_agent_id : String) : Bool :=
  match env.getAgent requesting_agent_id, env.getAgent target_agent_id with
  | some requesting_agent, some target_agent =>
      check_agent_has_permission requesting_agent.permissions
          target_agent_id target_agent.provider_id
      && check_agent_has_permission target_agent.permissions
          requesting_agent_id requesting_agent.provider_id
  | _, _ => false

/-- `TokenService.create_interaction_token`.  `now` is the issuance instant,
`expires_delta` the (already defaulted) lifetime in seconds, and `token_id`
the fresh `uuid4` value. -/
def create_interaction_token (env : Env) (now : Int)
    (agent_id target_agent_id : String)
    (dpop_proof dpop_public_key : String)
    (method url : String)
    (expires_delta : Int) (token_id : String) :
    Except TokenError InteractionToken :=
  if !verify_agent_permissions env agent_id target_agent_id then
    .error .permissionDenied
  else if !env.verify_proof dpop_proof dpop_public_key method url then
    .error .invalidProof
  else
    let expires_at := now + expires_delta
    let claims : TokenClaims :=
      { sub := agent_id
        target := target_agent_id
        dpop_hash := env.hash_dpop_proof dpop_proof
        dpop_public_key := some (env.encrypt_field dpop_public_key)
        exp := expires_at
        iat := now
        iss := "registry"
        jti := token_id
        nbf := now
        typ := "interaction_token" }
    .ok ⟨jwtEncode env.registryKey claims, target_agent_id, expires_at⟩

/-- Python truthiness of an optional string (`if s:`): `None` and the empty
string are falsy. -/
def strTruthy : Option String → Bool
  | none => false
  | some s => !s.isEmpty

/-- The PEM marker prefix checked at line 311 of `token_service.py`. -/
def pemHeader : String := "-----BEGIN PUBLIC KEY-----"

/-- Lines 310–312: wrap the key material in PEM public-key markers when it is
truthy and lacks them. -/
def ensurePem (k : String) : String :=
  if !k.isEmpty && !(k.startsWith pemHeader) then
    pemHeader ++ "\n" ++ k ++ "\n-----END PUBLIC KEY-----"
  else
    k

/-- Lines 279–296: convert the JWK of the proof header to a PEM key by
base64url-decoding the modulus and exponent and reconstructing the RSA public
key; `none` models the raised exception on a decode failure. -/
def jwkToPem (env : Env) (j : Jwk) : Option String :=
  match env.b64urlToNat j.n, env.b64urlToNat j.e with
  | some n, some e => some (env.rsaPemFromModulusExponent n e)
  | _, _ => none

/-- Lines 240–312 of `verify_token`: choose the public key for the DPoP
check.  Prefer the decrypted `dpop_public_key` claim (skipped when the claim
is falsy, when decryption raises, or when it yields a falsy string); otherwise
fall back to the JWK of the proof's unverified header.  The chosen material is
PEM-wrapped.  `none` models the exception raised when no key is obtainable. -/
def selectDpopKey (env : Env) (payload : TokenClaims) (dpop_proof : String) :
    Option String :=
  let fromToken : Option String :=
    match payload.dpop_public_key with
    | some k =>
        if k.isEmpty then none
        else match env.decrypt_field k with
          | some d => if d.isEmpty then none else some d
          | none => none
    | none => none
  match fromToken with
  | some d => some (ensurePem d)
  | none =>
      match env.getUnverifiedJwk dpop_proof with
      | some jwk =>
          match jwkToPem env jwk with
          | some pem => some (ensurePem pem)
          | none => none
      | none => none

/-- `TokenService.verify_token`.  The optional DPoP arguments are taken as in
Python (`if dpop_proof and method and url:`, with empty strings falsy). -/
def verify_token (env : Env) (now : Int) (token : Token)
    (expected_target : Option String)
    (dpop_proof method url : Option String) :
    Except TokenError TokenClaims :=
  match jwtDecode env.registryKey now token with
  | none => .error .invalidToken
  | some payload =>
    if expected_target.any (fun t => t != payload.target) then
      .error .targetMismatch
    else
      let dpopCheck : Except TokenError Unit :=
        if strTruthy dpop_proof && strTruthy method && strTruthy url then
          let proof := dpop_proof.getD ""
          match env.getAgent payload.target with
          | none => .error .verifyingAgentNotFound
          | some _ =>
            match selectDpopKey env payload proof with
            | none => .error .dpopVerificationFailed
            | some key =>
                if key.isEmpty
                    || !env.verify_proof proof key (method.getD "") (url.getD "") then
                  .error .dpopVerificationFailed
                else
                  .ok ()
        else
          .ok ()
      match dpopCheck with
      | .error e => .error e
      | .ok _ =>
          if !verify_agent_permissions env payload.sub payload.target then
            .error .permissionRevoked
          else
            .ok payload

/-! ## Channel protocol and WebSocketHandler -/

/-- Modelled from the spec: the message-type vocabulary of the channel
protocol (`channel/protocol.py` is not part of the sources); `app` stands for
any application-defined type registered with the handler. -/
inductive MessageType where
  | channel_open
  | channel_accept
  | channel_close
  | heartbeat
  | error
  | app (name : String)
deriving DecidableEq, Repr

/-- The rendering of a message type used in the "Unsupported message type"
error text. -/
def MessageType.render : MessageType → String
  | .channel_open => "channel_open"
  | .channel_accept => "channel_accept"
  | .channel_close => "channel_close"
  | .heartbeat => "heartbeat"
  | .error => "error"
  | .app name => name

/-- The `meta` section of an inbound message, restricted to the fields the
handler reads: `message_id`, `sender_id` and `channel_id`. -/
structure Meta where
  message_id : String
  sender_id : String
  channel_id : String
deriving DecidableEq, Repr

/-- The `content` section of an inbound message: the type discriminator and,
of the free-form `data` object, the only field the handler ever reads —
`data.get("reason", "normal")` in `_handle_channel_close`. -/
structure InContent where
  type : MessageType
  reason : Option String
deriving DecidableEq, Repr

/-- An inbound message whose `meta` and `content` sections are both
present. -/
structure InMessage where
  meta : Meta
  content : InContent
deriving DecidableEq, Repr

/-- One inbound WebSocket frame: either text that fails `json.loads`, or a
parsed JSON object with possibly missing `meta`/`content` sections. -/
inductive Frame where
  | malformed
  | parsed (meta : Option Meta) (content : Option InContent)
deriving DecidableEq, Repr

/-- The `meta` section of an outbound message built by the handler. -/
structure OutMeta where
  message_id : String
  sender_id : String
  recipient_id : String
  timestamp : String
  sequence : Nat
  channel_id : String
  reply_to : Option String
deriving DecidableEq, Repr

/-- The `data` payloads the handler sends. -/
inductive OutData where
  | channelAccept (protocol_version : String) (capabilities : List String)
  | closeAck (acknowledged : Bool) (reason : String)
  | heartbeat
  | errorMsg (message : String)
  | appData (payload : String)
deriving DecidableEq, Repr

/-- The `content` section of an outbound message. -/
structure OutContent where
  type : MessageType
  data : OutData
deriving DecidableEq, Repr

/-- An outbound message (the JSON object passed to `websocket.send`). -/
structure OutMessage where
  meta : OutMeta
  content : OutContent
deriving DecidableEq, Repr

/-- Per-connection mutable state (`connection_info`): the sender id recorded
from the first message and the channel id recorded on `CHANNEL_OPEN`. -/
structure ConnState where
  agent_id : Option String
  channel_id : Option String
deriving DecidableEq, Repr

/-- The outcome of `self.authed.auth.verify_token(token)`: a boolean, or a
raised `AuthenticationError`. -/
inductive AuthOutcome where
  | valid
  | invalid
  | raises
deriving DecidableEq, Repr

/-- The environment of `WebSocketHandler`: its own agent id, the injected
authentication verifier, and the registered application handlers. -/
structure WsEnv where
  agent_id : String
  verifyToken : String → AuthOutcome
  handlers : MessageType → Option (InMessage → Option OutMessage)

/-- Whether the receive loop continues after a message (`continue`) or breaks
out (`break`, only on `CHANNEL_CLOSE`). -/
inductive LoopAction where
  | next
  | stop
deriving DecidableEq, Repr

/-- `deleteChannel c active`: `self.active_connections.pop(c, None)` — the
channel id is no longer a key of the registry. -/
def deleteChannel (c : String) (active : List String) : List String :=
  active.filter fun x => x ≠ c

/-- `addChannel c active`: `self.active_connections[c] = connection_info` —
the channel id becomes a key of the registry. -/
def addChannel (c : String) (active : List String) : List String :=
  if active.contains c then active else c :: active

/-- The `CHANNEL_ACCEPT` reply of `_handle_channel_open`. -/
def acceptReply (env : WsEnv) (fid ts : String) (meta : Meta) : OutMessage :=
  { meta :=
      { message_id := fid
        sender_id := env.agent_id
        recipient_id := meta.sender_id
        timestamp := ts
        sequence := 1
        channel_id := meta.channel_id
        reply_to := some meta.message_id }
    content :=
      { type := .channel_accept
        data := .channelAccept "1.0" ["json"] } }

/-- The acknowledgment of `_handle_channel_close`, echoing the close
reason. -/
def closeAckReply (env : WsEnv) (fid ts : String) (meta : Meta)
    (reason : String) : OutMessage :=
  { meta :=
      { message_id := fid
        sender_id := env.agent_id
        recipient_id := meta.sender_id
        timestamp := ts
        sequence := 1
        channel_id := meta.channel_id
        reply_to := some meta.message_id }
    content :=
      { type := .channel_close
        data := .closeAck true reason } }

/-- The `HEARTBEAT` reply of `_handle_heartbeat` (sequence 0). -/
def heartbeatReply (env : WsEnv) (fid ts : String) (meta : Meta) : OutMessage :=
  { meta :=
      { message_id := fid
        sender_id := env.agent_id
        recipient_id := meta.sender_id
        timestamp := ts
        sequence := 0
        channel_id := meta.channel_id
        reply_to := some meta.message_id }
    content :=
      { type := .heartbeat
        data := .heartbeat } }

/-- The `ERROR` message of `_send_error`. -/
def errorReply (env : WsEnv) (fid ts : String) (message : String)
    (reply_to : Option String) (sender_id : Option String) : OutMessage :=
  { meta :=
      { message_id := fid
        sender_id := env.agent_id
        recipient_id := sender_id.getD "anonymous"
        timestamp := ts
        sequence := 0
        channel_id := "error"
        reply_to := reply_to }
    content :=
      { type := .error
        data := .errorMsg message } }

/-- The result of processing one inbound frame: the messages passed to
`websocket.send` (in order), the updated registry and connection state, and
whether the loop continues. -/
structure StepOut where
  sent : List OutMessage
  active : List String
  conn : ConnState
  action : LoopAction
deriving Repr

/-- One iteration of the receive loop of `handle_connection` (lines 78–129):
parse + validate the frame, record the sender id, then dispatch on the
content type.  `fid` is the fresh uuid4 for a reply, `ts` the current
timestamp.  `closeSendFails` tells whether `websocket.send` raises while
acknowledging a `CHANNEL_CLOSE`; that exception is caught and only logged, so
no output depends on it. -/
def step (env : WsEnv) (fid ts : String) (closeSendFails : Bool)
    (conn : ConnState) (active : List String) : Frame → StepOut
  | .malformed =>
      ⟨[errorReply env fid ts "Invalid JSON" none none], active, conn, .next⟩
  | .parsed none _ =>
      ⟨[errorReply env fid ts "Invalid message format" none none],
        active, conn, .next⟩
  | .parsed (some _) none =>
      ⟨[errorReply env fid ts "Invalid message format" none none],
        active, conn, .next⟩
  | .parsed (some meta) (some content) =>
      let conn := { conn with agent_id := some meta.sender_id }
      match content.type with
      | .channel_open =>
          let conn := { conn with channel_id := some meta.channel_id }
          ⟨[acceptReply env fid ts meta],
            addChannel meta.channel_id active, conn, .next⟩
      | .channel_close =>
          let _ := closeSendFails
          let reason := content.reason.getD "normal"
          ⟨[closeAckReply env fid ts meta reason],
            deleteChannel meta.channel_id active, conn, .stop⟩
      | .heartbeat =>
          ⟨[heartbeatReply env fid ts meta], active, conn, .next⟩
      | t =>
          match env.handlers t with
          | some h =>
              match h ⟨meta, content⟩ with
              | some resp => ⟨[resp], active, conn, .next⟩
              | none => ⟨[], active, conn, .next⟩
          | none =>
              ⟨[errorReply env fid ts
                  ("Unsupported message type: " ++ t.render)
                  (some meta.message_id) (some meta.sender_id)],
                active, conn, .next⟩

/-- The result of the whole receive loop: everything sent, the final registry
and connection state, and how many frames were read off the socket. -/
structure LoopOut where
  sent : List OutMessage
  active : List String
  conn : ConnState
  processed : Nat
deriving Repr

/-- The receive loop (`async for message_data in websocket`), reading frames
in order until the list is exhausted or a step breaks out.  `fresh n` is the
uuid4 drawn for the reply to the `n`-th frame. -/
def runLoop (env : WsEnv) (fresh : Nat → String) (ts : String)
    (closeSendFails : Bool) (n : Nat) (conn : ConnState)
    (active : List String) : List Frame → LoopOut
  | [] => ⟨[], active, conn, 0⟩
  | f :: rest =>
      let s := step env (fresh n) ts closeSendFails conn active f
      match s.action with
      | .stop => ⟨s.sent, s.active, s.conn, 1⟩
      | .next =>
          let r := runLoop env fresh ts closeSendFails (n + 1) s.conn s.active rest
          ⟨s.sent ++ r.sent, r.active, r.conn, r.processed + 1⟩

/-- The observable outcome of `handle_connection`: the explicit
`websocket.close(code, reason)` call if any, every message sent, the number
of frames read, and the final active-connections registry. -/
structure ConnOutcome where
  close : Option (Nat × String)
  sent : List OutMessage
  processed : Nat
  active : List String
deriving Repr

/-- `WebSocketHandler.handle_connection`: authenticate (absent header →
close 1008 before reading anything; invalid token or raised
`AuthenticationError` → close 1008), then run the receive loop over the
frames the peer sends, and finally pop `connection_info["channel_id"]` from
the registry. -/
def handle_connection (env : WsEnv) (fresh : Nat → String) (ts : String)
    (closeSendFails : Bool) (active₀ : List String)
    (authHeader : Option String) (frames : List Frame) : ConnOutcome :=
  match authHeader with
  | none => ⟨some (1008, "Missing authentication"), [], 0, active₀⟩
  | some header =>
      let token := header.replace "Bearer " ""
      match env.verifyToken token with
      | .raises => ⟨some (1008, "Authentication error"), [], 0, active₀⟩
      | .invalid => ⟨some (1008, "Invalid authentication"), [], 0, active₀⟩
      | .valid =>
          let r := runLoop env fresh ts closeSendFails 0 ⟨none, none⟩ active₀ frames
          let finalActive :=
            match r.conn.channel_id with
            | some c => deleteChannel c r.active
            | none => r.active
          ⟨none, r.sent, r.processed, finalActive⟩

/-! ## Specification predicates and concrete fixtures -/

/-- The grant condition in the spec's words: the permission list holds an
`ALLOW_AGENT` grant whose `target_id` is the other agent's id, or an
`ALLOW_PROVIDER` grant whose `target_id` is the other agent's provider id. -/
def grantReaches (perms : List AgentPermission)
    (agentId providerId : String) : Prop :=
  ∃ p ∈ perms,
    (p.type = PermissionType.allow_agent ∧ p.target_id = agentId)
    ∨ (p.type = PermissionType.allow_provider ∧ p.target_id = providerId)

/-- Mutual authorization in the spec's words: both agents resolve and each
holds a grant reaching the other. -/
def mutualGrants (env : Env) (a b : String) : Prop :=
  ∃ agA agB,
    env.getAgent a = some agA ∧ env.getAgent b = some agB
    ∧ grantReaches agA.permissions b agB.provider_id
    ∧ grantReaches agB.permissions a agA.provider_id

/-- A registry state in which agents `"A"` and `"B"` exist but hold no
permission grants at all (e.g. after every grant was revoked). -/
def envNoGrants : Env where
  getAgent := fun id =>
    if id = "A" then some ⟨"PA", []⟩
    else if id = "B" then some ⟨"PB", []⟩
    else none
  registryKey := 7
  verify_proof := fun _ _ _ _ => true
  hash_dpop_proof := fun _ => "hash"
  encrypt_field := fun s => "enc:" ++ s
  decrypt_field := fun _ => none
  getUnverifiedJwk := fun _ => none
  b64urlToNat := fun _ => none
  rsaPemFromModulusExponent := fun _ _ => "PEMKEY"

/-- A registry state in which no agent id resolves at all. -/
def envUnresolvable : Env :=
  { envNoGrants with getAgent := fun _ => none }

/-- A registry state for exercising the DPoP branch of `verify_token`: the
encrypted field `"ENC"` decrypts to `"KEY"` and every DPoP proof is
rejected by the verifier. -/
def envDpop : Env :=
  { envNoGrants with
      verify_proof := fun _ _ _ _ => false
      decrypt_field := fun s => if s = "ENC" then some "KEY" else none }

/-- A concrete claim set for subject `"A"` and target `"B"`, valid from time
0 to time 100, carrying the encrypted DPoP key `"ENC"`. -/
def claimsAB : TokenClaims :=
  { sub := "A"
    target := "B"
    dpop_hash := "hash"
    dpop_public_key := some "ENC"
    exp := 100
    iat := 0
    iss := "registry"
    jti := "jti-1"
    nbf := 0
    typ := "interaction_token" }

/-! ## Helper lemmas -/

theorem check_agent_has_permission_iff (perms : List AgentPermission)
    (aid pid : String) :
    check_agent_has_permission perms aid pid = true ↔
      grantReaches perms aid pid := by
  simp [check_agent_has_permission, grantReaches]

theorem verify_agent_permissions_iff (env : Env) (a b : String) :
    verify_agent_permissions env a b = true ↔ mutualGrants env a b := by
  unfold verify_agent_permissions mutualGrants
  cases hA : env.getAgent a <;> cases hB : env.getAgent b <;>
    simp [hA, hB, check_agent_has_permission_iff]

theorem verify_agent_permissions_false_of_not_mutual (env : Env) (a b : String)
    (h : ¬ mutualGrants env a b) :
    verify_agent_permissions env a b = false := by
  cases hv : verify_agent_permissions env a b
  · rfl
  · exact absurd ((verify_agent_permissions_iff env a b).1 hv) h

theorem jwtDecode_encode (k : Nat) (now : Int) (claims : TokenClaims)
    (hexp : now < claims.exp) (hnbf : claims.nbf ≤ now) :
    jwtDecode k now (jwtEncode k claims) = some claims := by
  simp [jwtDecode, jwtEncode, hexp, hnbf]

/-! ## Claims about TokenService -/

/-- C10: the mutual-permission evaluation is symmetric — for every pair of
agent ids, whether or not they resolve, `_verify_agent_permissions(A, B)`
returns the same boolean as `_verify_agent_permissions(B, A)`. -/
theorem verify_agent_permissions_symm (env : Env) (a b : String) :
    verify_agent_permissions env a b = verify_agent_permissions env b a := by
  unfold verify_agent_permissions
  cases env.getAgent a <;> cases env.getAgent b <;> simp [Bool.and_comm]

/-- C1: `create_interaction_token` succeeds only when each agent holds an
`ALLOW_AGENT` grant on the other's id or an `ALLOW_PROVIDER` grant on the
other's provider id; when the mutual grant fails, the outcome is
`PermissionDenied` — for every environment, hence independently of whether
`verify_proof` would accept the supplied DPoP proof, since the permission
check precedes proof verification. -/
theorem create_interaction_token_permission_gate (env : Env) (now : Int)
    (a b dpop_proof dpop_public_key method url : String)
    (expires_delta : Int) (jti : String) :
    (∀ tok,
        create_interaction_token env now a b dpop_proof dpop_public_key
            method url expires_delta jti = .ok tok →
        mutualGrants env a b)
    ∧ (¬ mutualGrants env a b →
        create_interaction_token env now a b dpop_proof dpop_public_key
            method url expires_delta jti = .error .permissionDenied) := by
  constructor
  · intro tok h
    by_contra hm
    have hv := verify_agent_permissions_false_of_not_mutual env a b hm
    simp [create_interaction_token, hv] at h
  · intro hm
    have hv := verify_agent_permissions_false_of_not_mutual env a b hm
    simp [create_interaction_token, hv]

/-- Witness for C1: with agents `"A"`, `"B"` holding no grants and a DPoP
verifier that accepts everything, issuance fails with `PermissionDenied`. -/
theorem create_interaction_token_permission_gate_witness :
    create_interaction_token envNoGrants 0 "A" "B" "proof" "key" "GET" "url"
        60 "jti" = .error .permissionDenied := by
  apply (create_interaction_token_permission_gate envNoGrants 0 "A" "B"
      "proof" "key" "GET" "url" 60 "jti").2
  rw [← verify_agent_permissions_iff]
  decide

/-- C2 counterexample: in a registry where neither agent id resolves,
`create_interaction_token` fails with the `PermissionDenied` kind (the
permission check returns `False` for missing agents and the service raises
"Insufficient permissions"), which is not the distinct `AgentNotFound` kind
the claim requires. -/
theorem create_interaction_token_missing_agent_counterexample :
    create_interaction_token envUnresolvable 0 "A" "B" "proof" "key" "GET"
        "url" 60 "jti" = .error .permissionDenied
    ∧ TokenError.permissionDenied ≠ TokenError.agentNotFound :=
  ⟨rfl, by decide⟩

/-- C2 (amended): when `AgentService` cannot resolve at least one of the two
agent ids, `create_interaction_token` fails — but with `PermissionDenied`,
because `_verify_agent_permissions` returns `False` for missing agents; no
distinct `AgentNotFound` error exists on this path, and resolution happens
inside the permission evaluation rather than before it. -/
theorem create_interaction_token_missing_agent (env : Env) (now : Int)
    (a b dpop_proof dpop_public_key method url : String)
    (expires_delta : Int) (jti : String)
    (h : env.getAgent a = none ∨ env.getAgent b = none) :
    create_interaction_token env now a b dpop_proof dpop_public_key
        method url expires_delta jti = .error .permissionDenied := by
  have hv : verify_agent_permissions env a b = false := by
    unfold verify_agent_permissions
    rcases h with h | h
    · rw [h]
    · rw [h]; cases env.getAgent a <;> rfl
  simp [create_interaction_token, hv]

/-- Witness for the amended C2 at a concrete unresolvable pair. -/
theorem create_interaction_token_missing_agent_witness :
    create_interaction_token envUnresolvable 1 "X" "Y" "p" "k" "GET" "u" 60
        "j" = .error .permissionDenied :=
  create_interaction_token_missing_agent envUnresolvable 1 "X" "Y" "p" "k"
    "GET" "u" 60 "j" (Or.inl rfl)

/-- C3: for a token with a valid registry signature (and inside its validity
window), if the current permission state no longer grants the subject-target
pair in both directions, `verify_token` fails with `PermissionRevoked`.  The
environment `env` is arbitrary and unrelated to the claims baked into the
token, so the permission state consulted is the one current at verification
time, not the one at issuance. -/
theorem verify_token_revoked_at_verify_time (env : Env) (now : Int)
    (claims : TokenClaims)
    (hexp : now < claims.exp) (hnbf : claims.nbf ≤ now)
    (hrev : ¬ mutualGrants env claims.sub claims.target) :
    verify_token env now (jwtEncode env.registryKey claims) none none none
        none = .error .permissionRevoked := by
  have hv := verify_agent_permissions_false_of_not_mutual env claims.sub
      claims.target hrev
  simp [verify_token, jwtDecode_encode env.registryKey now claims hexp hnbf,
    strTruthy, hv]

/-- Witness for C3: a token for `("A", "B")` signed by the registry is
rejected with `PermissionRevoked` when verified in a state where the two
agents exist but hold no grants. -/
theorem verify_token_revoked_witness :
    verify_token envNoGrants 0 (jwtEncode envNoGrants.registryKey claimsAB)
        none none none none = .error .permissionRevoked :=
  verify_token_revoked_at_verify_time envNoGrants 0 claimsAB (by decide)
    (by decide) (by rw [← verify_agent_permissions_iff]; decide)

/-- C4: every token that is not a registry-signed token over its own claims
(in particular any mutation of a validly signed token that does not re-sign
it), and every token whose `exp` is not in the future or whose `nbf` is in
the future, is rejected by `verify_token` with `InvalidToken`, whatever the
other arguments are. -/
theorem verify_token_invalid_signature_or_window (env : Env) (now : Int)
    (tok : Token) (expected_target dpop_proof method url : Option String)
    (h : tok ≠ jwtEncode env.registryKey tok.claims
        ∨ tok.claims.exp ≤ now ∨ now < tok.claims.nbf) :
    verify_token env now tok expected_target dpop_proof method url
      = .error .invalidToken := by
  have hd : jwtDecode env.registryKey now tok = none := by
    unfold jwtDecode
    rw [if_neg]
    rintro ⟨h1, h2, h3, h4⟩
    rcases h with h | h | h
    · apply h
      obtain ⟨c, k, p⟩ := tok
      simp only at h1 h2
      subst h1 h2
      rfl
    · omega
    · omega
  unfold verify_token
  rw [hd]

/-- Witness for C4: flipping the subject claim of a validly signed token
without re-signing makes `verify_token` fail with `InvalidToken`. -/
theorem verify_token_mutation_witness :
    verify_token envNoGrants 50
        ⟨{ claimsAB with sub := "Z" },
          (jwtEncode envNoGrants.registryKey claimsAB).sig⟩
        none none none none = .error .invalidToken :=
  verify_token_invalid_signature_or_window envNoGrants 50 _ none none none
    none (Or.inl (by decide))

/-- C5: when `verify_token` receives a DPoP proof, method and url (all
truthy) for a registry-signed, in-window token whose target resolves, the
key checked is chosen by preference: the decrypted `dpop_public_key` claim
when the claim is present and decrypts to usable material; otherwise the RSA
key reconstructed from the modulus and exponent of the JWK in the proof's
unverified header.  The chosen material is wrapped in PEM markers when it
lacks them (`ensurePem`), and the call fails with `DPoPVerificationFailed`
when no key can be obtained or the proof does not verify against the chosen
key. -/
theorem verify_token_dpop_key_preference (env : Env) (now : Int)
    (claims : TokenClaims) (dpop_proof method url : String)
    (hproof : dpop_proof ≠ "") (hmethod : method ≠ "") (hurl : url ≠ "")
    (hexp : now < claims.exp) (hnbf : claims.nbf ≤ now)
    (hagent : (env.getAgent claims.target).isSome = true) :
    (selectDpopKey env claims dpop_proof = none →
        verify_token env now (jwtEncode env.registryKey claims) none
            (some dpop_proof) (some method) (some url)
          = .error .dpopVerificationFailed)
    ∧ (∀ k, selectDpopKey env claims dpop_proof = some k →
        (k = "" ∨ env.verify_proof dpop_proof k method url = false) →
        verify_token env now (jwtEncode env.registryKey claims) none
            (some dpop_proof) (some method) (some url)
          = .error .dpopVerificationFailed)
    ∧ (∀ ek d, claims.dpop_public_key = some ek → ek ≠ "" →
        env.decrypt_field ek = some d → d ≠ "" →
        selectDpopKey env claims dpop_proof = some (ensurePem d))
    ∧ ((claims.dpop_public_key = none
          ∨ ∃ ek, claims.dpop_public_key = some ek
              ∧ (ek = "" ∨ env.decrypt_field ek = none
                  ∨ env.decrypt_field ek = some "")) →
        ∀ jwk nN nE, env.getUnverifiedJwk dpop_proof = some jwk →
          env.b64urlToNat jwk.n = some nN →
          env.b64urlToNat jwk.e = some nE →
          selectDpopKey env claims dpop_proof
            = some (ensurePem (env.rsaPemFromModulusExponent nN nE))) := by
  obtain ⟨ag, hag⟩ := Option.isSome_iff_exists.1 hagent
  have hp' : dpop_proof.isEmpty = false := by
    rw [← Bool.not_eq_true, String.isEmpty_iff]; exact hproof
  have hm' : method.isEmpty = false := by
    rw [← Bool.not_eq_true, String.isEmpty_iff]; exact hmethod
  have hu' : url.isEmpty = false := by
    rw [← Bool.not_eq_true, String.isEmpty_iff]; exact hurl
  refine ⟨?_, ?_, ?_, ?_⟩
  · intro hsel
    simp [verify_token, jwtDecode_encode env.registryKey now claims hexp hnbf,
      strTruthy, hp', hm', hu', hag, hsel]
  · intro k hsel hfail
    rcases hfail with hfail | hfail
    · subst hfail
      have hemp : ("" : String).isEmpty = true := rfl
      simp [verify_token,
        jwtDecode_encode env.registryKey now claims hexp hnbf,
        strTruthy, hp', hm', hu', hag, hsel, hemp]
    · simp [verify_token,
        jwtDecode_encode env.registryKey now claims hexp hnbf,
        strTruthy, hp', hm', hu', hag, hsel, hfail]
  · intro ek d hek hekne hdec hdne
    have hek' : ek.isEmpty = false := by
      rw [← Bool.not_eq_true, String.isEmpty_iff]; exact hekne
    have hd' : d.isEmpty = false := by
      rw [← Bool.not_eq_true, String.isEmpty_iff]; exact hdne
    simp [selectDpopKey, hek, hek', hdec, hd']
  · intro htok jwk nN nE hjwk hn he
    have hfrom :
        (match claims.dpop_public_key with
          | some k =>
              if k.isEmpty then none
              else match env.decrypt_field k with
                | some d => if d.isEmpty then none else some d
                | none => none
          | none => (none : Option String)) = none := by
      rcases htok with h | ⟨ek, hek, hcase⟩
      · rw [h]
      · rw [hek]
        rcases hcase with h | h | h
        · subst h; rfl
        · simp [h]
        · simp [h]
          intro _
          decide
    simp [selectDpopKey, hfrom, hjwk, jwkToPem, hn, he]

/-- Witness for C5: with the token's encrypted key decrypting to `"KEY"` and
a verifier rejecting every proof, the chosen key is the PEM-wrapped
decryption of the token claim and verification fails with
`DPoPVerificationFailed`. -/
theorem verify_token_dpop_witness :
    verify_token envDpop 0 (jwtEncode envDpop.registryKey claimsAB) none
        (some "proof") (some "GET") (some "url")
      = .error .dpopVerificationFailed
    ∧ selectDpopKey envDpop claimsAB "proof" = some (ensurePem "KEY") := by
  have h := verify_token_dpop_key_preference envDpop 0 claimsAB "proof" "GET"
      "url" (by decide) (by decide) (by decide) (by decide) (by decide)
      (by decide)
  have hsel : selectDpopKey envDpop claimsAB "proof" = some (ensurePem "KEY")
    := h.2.2.1 "ENC" "KEY" rfl (by decide) rfl (by decide)
  exact ⟨h.2.1 (ensurePem "KEY") hsel (Or.inr rfl), hsel⟩

/-! ## Claims about WebSocketHandler -/

theorem mem_addChannel (c : String) (active : List String) :
    c ∈ addChannel c active := by
  unfold addChannel
  split
  · next h => exact List.elem_iff.mp h
  · exact List.mem_cons_self c active

theorem not_mem_deleteChannel (c : String) (active : List String) :
    c ∉ deleteChannel c active := by
  simp [deleteChannel]

/-- C6: a `CHANNEL_OPEN` message with channel id `c` and message id `mid`
registers `c` in the active-connections registry and produces exactly one
reply — a `CHANNEL_ACCEPT` with data `{protocol_version: "1.0",
capabilities: ["json"]}`, sequence 1, `reply_to = mid` and channel id `c` —
after which the receive loop continues (the connection remains open). -/
theorem websocket_channel_open_step (env : WsEnv) (fid ts : String)
    (csf : Bool) (conn : ConnState) (active : List String)
    (mid sid c : String) (r : Option String) :
    ∃ reply,
      step env fid ts csf conn active
          (.parsed (some ⟨mid, sid, c⟩) (some ⟨.channel_open, r⟩))
        = ⟨[reply], addChannel c active, ⟨some sid, some c⟩, .next⟩
      ∧ reply.content.type = .channel_accept
      ∧ reply.content.data = .channelAccept "1.0" ["json"]
      ∧ reply.meta.sequence = 1
      ∧ reply.meta.reply_to = some mid
      ∧ reply.meta.channel_id = c
      ∧ c ∈ addChannel c active :=
  ⟨acceptReply env fid ts ⟨mid, sid, c⟩, rfl, rfl, rfl, rfl, rfl, rfl,
    mem_addChannel c active⟩

/-- C7: a `CHANNEL_CLOSE` message with channel id `c` makes the handler send
an acknowledgment echoing the close reason (defaulting to "normal"), remove
`c` from the active-connections registry, and break out of the receive loop,
so that any frames following the close are never processed.  The flag `csf`
says whether the acknowledgment send raises; the outcome is the same either
way, since that exception is caught and only logged. -/
theorem websocket_channel_close_step (env : WsEnv) (fresh : Nat → String)
    (fid ts : String) (csf : Bool) (n : Nat) (conn : ConnState)
    (active : List String) (mid sid c : String) (r : Option String)
    (rest : List Frame) :
    ∃ ack,
      step env fid ts csf conn active
          (.parsed (some ⟨mid, sid, c⟩) (some ⟨.channel_close, r⟩))
        = ⟨[ack], deleteChannel c active, ⟨some sid, conn.channel_id⟩, .stop⟩
      ∧ ack.content.type = .channel_close
      ∧ ack.content.data = .closeAck true (r.getD "normal")
      ∧ c ∉ deleteChannel c active
      ∧ runLoop env fresh ts csf n conn active
            (.parsed (some ⟨mid, sid, c⟩) (some ⟨.channel_close, r⟩) :: rest)
          = runLoop env fresh ts csf n conn active
              [.parsed (some ⟨mid, sid, c⟩) (some ⟨.channel_close, r⟩)] :=
  ⟨closeAckReply env fid ts ⟨mid, sid, c⟩ (r.getD "normal"), rfl, rfl, rfl,
    not_mem_deleteChannel c active, rfl⟩

/-- C8: a frame that parses as JSON but carries neither a `meta` nor a
`content` section is answered with a single `ERROR` reply ("Invalid message
format"), the registry and connection state are untouched, and the receive
loop continues — the connection stays open. -/
theorem websocket_missing_sections_step (env : WsEnv) (fid ts : String)
    (csf : Bool) (conn : ConnState) (active : List String) :
    step env fid ts csf conn active (.parsed none none)
      = ⟨[errorReply env fid ts "Invalid message format" none none],
          active, conn, .next⟩
    ∧ (errorReply env fid ts "Invalid message format" none none).content.type
        = .error :=
  ⟨rfl, rfl⟩

/-- C9: a connection without an `Authorization` header is closed immediately
with policy-violation code 1008; zero frames are read off the socket,
nothing is sent, and the registry is untouched — the handler never enters
the receive loop. -/
theorem websocket_missing_auth_header (env : WsEnv) (fresh : Nat → String)
    (ts : String) (csf : Bool) (active₀ : List String)
    (frames : List Frame) :
    handle_connection env fresh ts csf active₀ none frames
      = ⟨some (1008, "Missing authentication"), [], 0, active₀⟩ :=
  rfl

end Authed
